import Mathlib

/-!
Verification of the value-investor stock-research app: a shallow embedding of
the server proxy routes (src/server/routes.ts) and the client-side
derived-metrics functions (src/client/src/pages/StockResearchApp.tsx),
with theorems settling the specification's claims about them.

Numbers that are JavaScript doubles in the source are modelled as exact
rationals (ℚ); `Math.round` and `toFixed` are modelled with their ECMAScript
rounding rules on the exact value.
-/

namespace ValueInvestor

/-- ECMAScript `Math.round`: nearest integer, ties toward positive infinity. -/
def jsRound (x : ℚ) : Int :=
  ⌊x + 1/2⌋

/-- JavaScript `v || d` on an optional number: `undefined` and `0` are falsy. -/
def jsOrQ : Option ℚ → ℚ → ℚ
  | none, d => d
  | some x, d => if x = 0 then d else x

/-- Digits of a character list read as a base-10 natural number. -/
def digitsToNat (l : List Char) : Nat :=
  l.foldl (fun acc c => acc * 10 + (c.toNat - ('0').toNat)) 0

/-- Longest leading run of decimal digits, as a number; `none` when there is
no leading digit (JavaScript `parseInt` would give `NaN`). -/
def leadingDigitsVal (l : List Char) : Option Nat :=
  let ds := l.takeWhile (fun c => c.isDigit)
  if ds.isEmpty then none else some (digitsToNat ds)

/-- ECMAScript `parseInt(s)` restricted to base 10: skip leading whitespace,
an optional sign, then the longest digit run; `none` models `NaN`. -/
def parseIntJS (s : String) : Option Int :=
  match s.data.dropWhile (fun c => c.isWhitespace) with
  | '-' :: rest => (leadingDigitsVal rest).map (fun n => -(n : Int))
  | '+' :: rest => (leadingDigitsVal rest).map (fun n => (n : Int))
  | cs => (leadingDigitsVal cs).map (fun n => (n : Int))

/-- Two-digit zero-padded rendering of a natural number below 100. -/
def twoDigits (n : Nat) : String :=
  if n < 10 then "0" ++ toString n else toString n

/-- ECMAScript `x.toFixed(2)` on a non-negative exact value: nearest
hundredth, ties toward the larger value. -/
def toFixed2Nonneg (x : ℚ) : String :=
  let n : Nat := (⌊x * 100 + 1/2⌋).toNat
  toString (n / 100) ++ "." ++ twoDigits (n % 100)

/-- ECMAScript `x.toFixed(2)`: the sign is split off first, per the spec of
`Number.prototype.toFixed`. -/
def toFixed2 (x : ℚ) : String :=
  if x < 0 then "-" ++ toFixed2Nonneg (-x) else toFixed2Nonneg x

/-- Insert a comma after every three characters of a reversed digit list. -/
def groupRev : List Char → List Char
  | a :: b :: c :: d :: rest => a :: b :: c :: ',' :: groupRev (d :: rest)
  | l => l

/-- en-US thousands grouping of a digit string. -/
def groupDigits (s : String) : String :=
  ⟨(groupRev s.data.reverse).reverse⟩

/-- A fractional part below 1000 as exactly three digits. -/
def padThree (n : Nat) : List Char :=
  (if n < 10 then ['0', '0'] else if n < 100 then ['0'] else []) ++ (toString n).data

/-- Drop trailing zero characters. -/
def stripTrailZeros (l : List Char) : List Char :=
  (l.reverse.dropWhile (fun c => c = '0')).reverse

/-- `Number.prototype.toLocaleString()` in the en-US default locale on a
non-negative value: thousands grouping, at most three fraction digits,
trailing zeros omitted. -/
def toLocaleStringEnUSNonneg (x : ℚ) : String :=
  let n : Nat := (⌊x * 1000 + 1/2⌋).toNat
  let fp := n % 1000
  groupDigits (toString (n / 1000)) ++
    (if fp = 0 then "" else "." ++ (⟨stripTrailZeros (padThree fp)⟩ : String))

/-- `Number.prototype.toLocaleString()` in the en-US default locale. -/
def toLocaleStringEnUS (x : ℚ) : String :=
  if x < 0 then "-" ++ toLocaleStringEnUSNonneg (-x) else toLocaleStringEnUSNonneg x

/-! ## Data model (the TypeScript interfaces of StockResearchApp.tsx) -/

/-- An optional metric of the income statement: `{ value, unit }`. -/
structure ValueUnit where
  value : ℚ
  unit : String
deriving DecidableEq

/-- `financials.income_statement` of a financial period; every metric is
optional. -/
structure IncomeStatement where
  revenues : Option ValueUnit
  net_income_loss : Option ValueUnit
  gross_profit : Option ValueUnit
  basic_earnings_per_share : Option ValueUnit
deriving DecidableEq

/-- The `financials` wrapper object of a period. -/
structure FinancialsObj where
  income_statement : IncomeStatement
deriving DecidableEq

/-- One financial-statement period (`FinancialData` in the source); an absent
`fiscal_year` is modelled as the empty string, which is exactly the set of
falsy string values in JavaScript. -/
structure FinancialData where
  fiscal_year : String
  fiscal_period : String
  end_date : String
  financials : FinancialsObj
deriving DecidableEq

/-- One entry of the DCF projection: `{ year, fcf, dcf }`; `fcf` and `dcf`
are produced by `Math.round`, hence integers. -/
structure DCFPoint where
  year : String
  fcf : Int
  dcf : Int
deriving DecidableEq

/-- One revenue chart point `{ year, revenue }` (revenue in billions). -/
structure RevenuePoint where
  year : String
  revenue : ℚ
deriving DecidableEq

/-- One profit chart point `{ year, netIncome } ` (net income in billions). -/
structure ProfitPoint where
  year : String
  netIncome : ℚ
deriving DecidableEq

/-- One synthetic segment `{ name, value, growth, color }`. -/
structure Segment where
  name : String
  value : ℚ
  growth : ℚ
  color : String
deriving DecidableEq

/-- One bar of the previous-session snapshot (`previousDay.results[0]`); the
source reads fields `c` (close) and `o` (open), each possibly absent. -/
structure PrevBar where
  c : Option ℚ
  o : Option ℚ
deriving DecidableEq

/-- Ambient environment visible to the client code; `currentYear` models
`new Date().getFullYear()`, the only ambient state any derived-metrics
function reads. -/
structure BrowserEnv where
  currentYear : Int
deriving DecidableEq

/-! ## Server proxy (src/server/routes.ts) -/

/-- What the upstream provider does for one outbound call: a success body, an
HTTP error (status text plus response body), or a transport-level failure. -/
inductive UpstreamResult where
  | ok (body : String)
  | httpError (statusText : String) (body : String)
  | transportError (message : String)
deriving DecidableEq

/-- The JSON payload a route sends back: `res.json(data)` on success or
`res.json({ error: message })` from the catch block. -/
inductive Payload where
  | data (body : String)
  | error (message : String)
deriving DecidableEq

/-- A route's observable outcome: HTTP status, payload, and how many outbound
calls to the provider it made. -/
structure RouteResponse where
  status : Nat
  payload : Payload
  upstreamCalls : Nat
deriving DecidableEq

/-- The shared proxy body of every route once the upstream call is issued:
relay a success body; on a non-ok response throw
`Polygon API error: <statusText>` (the body is read but never surfaced); on a
transport failure the fetch rejection's message is surfaced; the catch block
turns any throw into a 500 with the error message. -/
def polygonProxy (upstream : UpstreamResult) : RouteResponse :=
  match upstream with
  | .ok body => ⟨200, .data body, 1⟩
  | .httpError statusText _ => ⟨500, .error ("Polygon API error: " ++ statusText), 1⟩
  | .transportError message => ⟨500, .error message, 1⟩

/-- `GET /api/stocks/search`: `req.query.q` is `none` when absent; the guard
is the JavaScript truthiness test `if (!query)`, which rejects exactly the
absent and the empty string. -/
def searchRoute (q : Option String) (upstream : UpstreamResult) : RouteResponse :=
  match q with
  | none => ⟨400, .error "Query parameter 'q' is required", 0⟩
  | some s =>
    if s = "" then ⟨400, .error "Query parameter 'q' is required", 0⟩
    else polygonProxy upstream

/-! ## Client derived-metrics functions (StockResearchApp.tsx) -/

/-- `formatCurrency` (primary variant, lines 223-228). -/
def formatCurrency (value : ℚ) : String :=
  if value ≥ 1000000000000 then "$" ++ toFixed2 (value / 1000000000000) ++ "T"
  else if value ≥ 1000000000 then "$" ++ toFixed2 (value / 1000000000) ++ "B"
  else if value ≥ 1000000 then "$" ++ toFixed2 (value / 1000000) ++ "M"
  else "$" ++ toLocaleStringEnUS value

/-- `revenueChartData`: map each period to `{ year, revenue-in-billions }`
(`revenues?.value || 0`), then `.reverse()`. -/
def revenueChartData (results : List FinancialData) : List RevenuePoint :=
  (results.map fun item =>
    { year := item.fiscal_year
      revenue := jsOrQ (item.financials.income_statement.revenues.map (fun r => r.value)) 0
        / 1000000000 }).reverse

/-- `profitChartData`: map each period to `{ year, netIncome-in-billions }`
(`net_income_loss?.value || 0`), then `.reverse()`. -/
def profitChartData (results : List FinancialData) : List ProfitPoint :=
  (results.map fun item =>
    { year := item.fiscal_year
      netIncome := jsOrQ (item.financials.income_statement.net_income_loss.map (fun r => r.value)) 0
        / 1000000000 }).reverse

/-- `currentPrice = previousDay?.results?.[0]?.c || 0`. -/
def currentPrice (results : List PrevBar) : ℚ :=
  jsOrQ (results.head?.bind (fun b => b.c)) 0

/-- `previousClose = previousDay?.results?.[0]?.o || currentPrice`. -/
def previousClose (results : List PrevBar) : ℚ :=
  jsOrQ (results.head?.bind (fun b => b.o)) (currentPrice results)

/-- `priceChange = currentPrice - previousClose`. -/
def priceChange (results : List PrevBar) : ℚ :=
  currentPrice results - previousClose results

/-- `priceChangePercent = previousClose > 0 ?
((priceChange / previousClose) * 100).toFixed(2) : "0.00"`. -/
def priceChangePercent (results : List PrevBar) : String :=
  if previousClose results > 0 then toFixed2 (priceChange results / previousClose results * 100)
  else "0.00"

/-- `generateDCFData`: from the first (latest) period, parse its fiscal year
(falling back to the clock's current year when the field is falsy), take its
revenue in billions, and emit five projected entries; `Array.from({length: 5},
(_, i) => ...)` is the list `[entry 0, ..., entry 4]`. -/
def generateDCFData (env : BrowserEnv) (financials : List FinancialData) : List DCFPoint :=
  match financials with
  | [] => []
  | f :: _ =>
    let latestYear : Option Int :=
      parseIntJS (if f.fiscal_year = "" then toString env.currentYear else f.fiscal_year)
    let latestRevenue : ℚ :=
      jsOrQ (f.financials.income_statement.revenues.map (fun r => r.value)) 0 / 1000000000
    let entry : Nat → DCFPoint := fun i =>
      { year := match latestYear with
          | none => "NaN"
          | some y => toString (y + (i : Int) + 1)
        fcf := jsRound (latestRevenue * ((105 : ℚ)/100) ^ (i + 1) * (15/100))
        dcf := jsRound (latestRevenue * ((105 : ℚ)/100) ^ (i + 1) * (15/100) * ((97 : ℚ)/100) ^ (i + 1)) }
    [entry 0, entry 1, entry 2, entry 3, entry 4]

/-- `generateDemoSegmentsData`: empty at revenue exactly 0, otherwise the
fixed 55/30/15 split, each value `Math.round(x * 10) / 10`. -/
def generateDemoSegmentsData (latestRevenue : ℚ) : List Segment :=
  if latestRevenue = 0 then []
  else
    [ { name := "Products", value := (jsRound (latestRevenue * (55/100) * 10) : ℚ) / 10,
        growth := 52/10, color := "#F59E0B" },
      { name := "Services", value := (jsRound (latestRevenue * (30/100) * 10) : ℚ) / 10,
        growth := 85/10, color := "#3B82F6" },
      { name := "Other", value := (jsRound (latestRevenue * (15/100) * 10) : ℚ) / 10,
        growth := 31/10, color := "#10B981" } ]

/-- `getGrowthColor`, with its dead fourth branch kept as written (the same
guard `growth >= -5` appears twice, so the orange arm is unreachable). -/
def getGrowthColor (growth : ℚ) : String :=
  if growth ≥ 15 then "#10B981"
  else if growth ≥ 5 then "#3B82F6"
  else if growth ≥ -5 then "#F59E0B"
  else if growth ≥ -5 then "#F97316"
  else "#EF4444"

/-! ## Spec-side definitions and sample data -/

/-- The revenue map of claim C5, written from the spec's words: year =
fiscal_year, value = the revenues value (0 when the field is absent) divided
by 1e9. -/
def revenuePointSpec (item : FinancialData) : RevenuePoint :=
  { year := item.fiscal_year
    revenue := (match item.financials.income_statement.revenues with
      | none => 0
      | some vu => vu.value) / 1000000000 }

/-- The profit map of claim C5, written from the spec's words. -/
def profitPointSpec (item : FinancialData) : ProfitPoint :=
  { year := item.fiscal_year
    netIncome := (match item.financials.income_statement.net_income_loss with
      | none => 0
      | some vu => vu.value) / 1000000000 }

/-- The four-band threshold map of claim C9, written from the spec's words:
strong at 15 and above, good from 5, the slow band from -5, decline below. -/
def growthColorBandSpec (g : ℚ) : String :=
  if g ≥ 15 then "#10B981"
  else if g ≥ 5 then "#3B82F6"
  else if g ≥ -5 then "#F59E0B"
  else "#EF4444"

/-- `formatCurrency` run in an ambient environment; its source reads no
ambient state, so the environment is unused. -/
def runFormatCurrency (_ : BrowserEnv) (v : ℚ) : String := formatCurrency v

/-- `revenueChartData` run in an ambient environment; the source reads no
ambient state. -/
def runRevenueChartData (_ : BrowserEnv) (rs : List FinancialData) : List RevenuePoint :=
  revenueChartData rs

/-- `profitChartData` run in an ambient environment; the source reads no
ambient state. -/
def runProfitChartData (_ : BrowserEnv) (rs : List FinancialData) : List ProfitPoint :=
  profitChartData rs

/-- `generateDemoSegmentsData` run in an ambient environment; the source
reads no ambient state. -/
def runGenerateDemoSegmentsData (_ : BrowserEnv) (r : ℚ) : List Segment :=
  generateDemoSegmentsData r

/-- `getGrowthColor` run in an ambient environment; the source reads no
ambient state. -/
def runGetGrowthColor (_ : BrowserEnv) (g : ℚ) : String := getGrowthColor g

/-- The first period of the list, when there is one, has a truthy (non-empty)
`fiscal_year`, so `generateDCFData` never reaches its current-year fallback. -/
def headYearPresent : List FinancialData → Bool
  | [] => true
  | f :: _ => f.fiscal_year != ""

/-- A sample latest period: fiscal year 2024, revenue one hundred billion
dollars, net income twenty-five billion dollars. -/
def samplePeriod2024 : FinancialData :=
  ⟨"2024", "FY", "2024-09-28",
    ⟨⟨some ⟨100000000000, "USD"⟩, some ⟨25000000000, "USD"⟩, none, none⟩⟩⟩

/-- A period with every optional metric absent and a falsy fiscal year. -/
def blankPeriod : FinancialData := ⟨"", "", "", ⟨⟨none, none, none, none⟩⟩⟩

/-- A period with every optional metric absent but a fiscal year present. -/
def noFieldsPeriod2023 : FinancialData :=
  ⟨"2023", "FY", "2023-12-31", ⟨⟨none, none, none, none⟩⟩⟩

/-! ## Helper lemmas -/

/-- `x || 0` on a present value gives the value back (0 stays 0). -/
theorem jsOrQ_some_zero (x : ℚ) : jsOrQ (some x) 0 = x := by
  by_cases h : x = 0 <;> simp [jsOrQ, h]

/-- `v || 0` is falsy exactly when `v` itself is absent or zero. -/
theorem jsOrQ_zero_iff (v : Option ℚ) : jsOrQ v 0 = 0 ↔ v = none ∨ v = some 0 := by
  cases v with
  | none => simp [jsOrQ]
  | some x => by_cases hx : x = 0 <;> simp [jsOrQ, hx]

/-- `(0).toFixed(2)` renders as "0.00". -/
theorem toFixed2_zero : toFixed2 0 = "0.00" := by
  norm_num [toFixed2, toFixed2Nonneg, twoDigits]
  rfl

/-! ## Claims -/

/-- Claim C1 is false as stated: a whitespace-only query string is truthy in
JavaScript, so the search route does not return 400 and does issue the
upstream call for it. -/
theorem C1_counterexample :
    (searchRoute (some " ") (.ok "tickers")).status ≠ 400 ∧
    (searchRoute (some " ") (.ok "tickers")).upstreamCalls = 1 ∧
    (" " : String).data.all (fun c => c.isWhitespace) = true := by
  refine ⟨?_, rfl, rfl⟩
  decide

/-- Claim C1 (amended): the search route responds 400 with a message naming
`q`, and issues no upstream call, exactly when the query parameter is absent
or empty; every other query, a whitespace-only one included, is forwarded
upstream. -/
theorem C1_search_validation (q : Option String) (u : UpstreamResult)
    (h : q = none ∨ q = some "") :
    searchRoute q u = ⟨400, .error "Query parameter 'q' is required", 0⟩ ∧
    ∀ s : String, s ≠ "" → (searchRoute (some s) u).upstreamCalls = 1 := by
  constructor
  · rcases h with h | h <;> subst h <;> simp [searchRoute]
  · intro s hs
    cases u <;> simp [searchRoute, hs, polygonProxy]

/-- Witness for C1: the amended statement applied to an absent query and to
the non-empty query "ap". -/
theorem C1_search_validation_witness :
    searchRoute none (.ok "tickers") =
      ⟨400, .error "Query parameter 'q' is required", 0⟩ ∧
    (searchRoute (some "ap") (.ok "tickers")).upstreamCalls = 1 := by
  have h := C1_search_validation none (.ok "tickers") (Or.inl rfl)
  exact ⟨h.1, h.2 "ap" (by decide)⟩

/-- Claim C6: on a non-success upstream response the proxy answers 500 with
the error message `Polygon API error:` followed by the upstream status text,
with no dependence on the upstream response body; on a transport failure it
answers 500 with the transport error's message; and every request makes
exactly one upstream call (no retry, no cached reuse of an earlier result). -/
theorem C6_upstream_failure :
    (∀ st body, polygonProxy (.httpError st body) =
        ⟨500, .error ("Polygon API error: " ++ st), 1⟩) ∧
    (∀ msg, polygonProxy (.transportError msg) = ⟨500, .error msg, 1⟩) ∧
    (∀ st b1 b2, polygonProxy (.httpError st b1) = polygonProxy (.httpError st b2)) ∧
    (∀ u, (polygonProxy u).upstreamCalls = 1) :=
  ⟨fun _ _ => rfl, fun _ => rfl, fun _ _ _ => rfl, fun u => by cases u <;> rfl⟩

/-- Claim C9: `getGrowthColor` agrees everywhere with the four-band
threshold map written from the spec, and its value always lies in those four
colors — the orange literal in the dead duplicate branch is unreachable. -/
theorem C9_growth_color (g : ℚ) :
    getGrowthColor g = growthColorBandSpec g ∧
    (getGrowthColor g = "#10B981" ∨ getGrowthColor g = "#3B82F6" ∨
     getGrowthColor g = "#F59E0B" ∨ getGrowthColor g = "#EF4444") := by
  unfold getGrowthColor growthColorBandSpec
  split_ifs <;> simp_all

/-- Claim C4: for non-negative inputs `formatCurrency` selects the T, B and
M suffixes at the 1e12, 1e9 and 1e6 thresholds with two-decimal rendering,
and below 1e6 falls back to a locale-grouped number behind a dollar sign; at
the spec's three sample points it produces "$1.50B", "$2.30T" and "$999". -/
theorem C4_formatCurrency :
    (∀ v : ℚ, v ≥ 1000000000000 →
      formatCurrency v = "$" ++ toFixed2 (v / 1000000000000) ++ "T") ∧
    (∀ v : ℚ, v ≥ 1000000000 → v < 1000000000000 →
      formatCurrency v = "$" ++ toFixed2 (v / 1000000000) ++ "B") ∧
    (∀ v : ℚ, v ≥ 1000000 → v < 1000000000 →
      formatCurrency v = "$" ++ toFixed2 (v / 1000000) ++ "M") ∧
    (∀ v : ℚ, 0 ≤ v → v < 1000000 → formatCurrency v = "$" ++ toLocaleStringEnUS v) ∧
    formatCurrency 1500000000 = "$1.50B" ∧
    formatCurrency 2300000000000 = "$2.30T" ∧
    formatCurrency 999 = "$999" := by
  refine ⟨?_, ?_, ?_, ?_, ?_, ?_, ?_⟩
  · intro v h
    simp only [formatCurrency]
    rw [if_pos h]
  · intro v h1 h2
    simp only [formatCurrency]
    split_ifs <;> first | rfl | linarith
  · intro v h1 h2
    simp only [formatCurrency]
    split_ifs <;> first | rfl | linarith
  · intro v h1 h2
    simp only [formatCurrency]
    split_ifs <;> first | rfl | linarith
  · norm_num [formatCurrency, toFixed2, toFixed2Nonneg, twoDigits]
    rfl
  · norm_num [formatCurrency, toFixed2, toFixed2Nonneg, twoDigits]
    rfl
  · norm_num [formatCurrency, toLocaleStringEnUS, toLocaleStringEnUSNonneg, groupDigits]
    rfl

/-- Witness for C4: the M branch of the theorem at 7,000,000, evaluated. -/
theorem C4_formatCurrency_witness : formatCurrency 7000000 = "$7.00M" := by
  have h := C4_formatCurrency.2.2.1 7000000 (by norm_num) (by norm_num)
  rw [h]
  norm_num [toFixed2, toFixed2Nonneg, twoDigits]
  rfl

/-- Claim C5: the revenue and profit chart builders are exactly the spec's
pointwise maps (year = fiscal_year, value in billions, absent metric read as
0) followed by a reversal to chronological order; a period with revenue one
hundred billion and net income twenty-five billion yields points valued 100
and 25, and a period missing both metrics yields 0 without failure. -/
theorem C5_series_builders :
    (∀ results, revenueChartData results = (results.map revenuePointSpec).reverse) ∧
    (∀ results, profitChartData results = (results.map profitPointSpec).reverse) ∧
    revenueChartData [samplePeriod2024] = [⟨"2024", 100⟩] ∧
    profitChartData [samplePeriod2024] = [⟨"2024", 25⟩] ∧
    revenueChartData [noFieldsPeriod2023] = [⟨"2023", 0⟩] ∧
    profitChartData [noFieldsPeriod2023] = [⟨"2023", 0⟩] := by
  refine ⟨?_, ?_, ?_, ?_, ?_, ?_⟩
  · intro results
    unfold revenueChartData
    congr 1
    apply List.map_congr_left
    intro item _
    simp only [revenuePointSpec]
    cases h : item.financials.income_statement.revenues with
    | none => simp [h, jsOrQ]
    | some vu => simp [h, jsOrQ_some_zero]
  · intro results
    unfold profitChartData
    congr 1
    apply List.map_congr_left
    intro item _
    simp only [profitPointSpec]
    cases h : item.financials.income_statement.net_income_loss with
    | none => simp [h, jsOrQ]
    | some vu => simp [h, jsOrQ_some_zero]
  · norm_num [revenueChartData, samplePeriod2024, jsOrQ]
  · norm_num [profitChartData, samplePeriod2024, jsOrQ]
  · norm_num [revenueChartData, noFieldsPeriod2023, jsOrQ]
  · norm_num [profitChartData, noFieldsPeriod2023, jsOrQ]

/-- Claim C7: the synthetic segments are empty at revenue 0; at revenue 10
they are exactly the three fixed segments 5.5 / 3 / 1.5 (the 55/30/15 split
rounded to one decimal) with growth rates 5.2, 8.5 and 3.1, and their values
sum to 10. -/
theorem C7_segments :
    generateDemoSegmentsData 0 = [] ∧
    generateDemoSegmentsData 10 =
      [⟨"Products", 11/2, 26/5, "#F59E0B"⟩,
       ⟨"Services", 3, 17/2, "#3B82F6"⟩,
       ⟨"Other", 3/2, 31/10, "#10B981"⟩] ∧
    ((generateDemoSegmentsData 10).map (fun s => s.value)).sum = 10 := by
  refine ⟨by norm_num [generateDemoSegmentsData], ?_, ?_⟩
  · norm_num [generateDemoSegmentsData, jsRound]
  · norm_num [generateDemoSegmentsData, jsRound]

/-- Claim C2 is false as stated: the code applies `Math.round` to each
projected value, so at the spec's own sample input the first year's fcf is
16, not the unrounded formula value 15.75. -/
theorem C2_counterexample :
    generateDCFData ⟨2030⟩ [samplePeriod2024] =
      [⟨"2025", 16, 15⟩, ⟨"2026", 17, 16⟩, ⟨"2027", 17, 16⟩,
       ⟨"2028", 18, 16⟩, ⟨"2029", 19, 16⟩] ∧
    ((16 : ℚ) ≠ 100000000000 / 1000000000 * ((105:ℚ)/100) ^ 1 * (15/100)) := by
  constructor
  · have hp : parseIntJS "2024" = some 2024 := rfl
    simp only [generateDCFData, samplePeriod2024, Option.map_some', jsOrQ_some_zero]
    norm_num [hp, jsRound]
    decide
  · norm_num

/-- Claim C2 (amended): the DCF projection is empty on an empty list; on a
non-empty list whose first (latest) period has a non-empty fiscal year
parsing to Y and revenue value R, it is exactly the five entries for years
Y+1..Y+5 whose n-th fcf is `Math.round((R/1e9)·1.05^n·0.15)` and whose n-th
dcf is `Math.round((R/1e9)·1.05^n·0.15·0.97^n)`. -/
theorem C2_amended (env : BrowserEnv) :
    generateDCFData env [] = [] ∧
    ∀ (f : FinancialData) (rest : List FinancialData) (Y : Int) (R : ℚ) (u : String),
      f.fiscal_year ≠ "" →
      parseIntJS f.fiscal_year = some Y →
      f.financials.income_statement.revenues = some ⟨R, u⟩ →
      generateDCFData env (f :: rest) =
        [ ⟨toString (Y + 1), jsRound (R / 1000000000 * ((105:ℚ)/100) ^ 1 * (15/100)),
            jsRound (R / 1000000000 * ((105:ℚ)/100) ^ 1 * (15/100) * ((97:ℚ)/100) ^ 1)⟩,
          ⟨toString (Y + 2), jsRound (R / 1000000000 * ((105:ℚ)/100) ^ 2 * (15/100)),
            jsRound (R / 1000000000 * ((105:ℚ)/100) ^ 2 * (15/100) * ((97:ℚ)/100) ^ 2)⟩,
          ⟨toString (Y + 3), jsRound (R / 1000000000 * ((105:ℚ)/100) ^ 3 * (15/100)),
            jsRound (R / 1000000000 * ((105:ℚ)/100) ^ 3 * (15/100) * ((97:ℚ)/100) ^ 3)⟩,
          ⟨toString (Y + 4), jsRound (R / 1000000000 * ((105:ℚ)/100) ^ 4 * (15/100)),
            jsRound (R / 1000000000 * ((105:ℚ)/100) ^ 4 * (15/100) * ((97:ℚ)/100) ^ 4)⟩,
          ⟨toString (Y + 5), jsRound (R / 1000000000 * ((105:ℚ)/100) ^ 5 * (15/100)),
            jsRound (R / 1000000000 * ((105:ℚ)/100) ^ 5 * (15/100) * ((97:ℚ)/100) ^ 5)⟩ ] := by
  refine ⟨rfl, ?_⟩
  intro f rest Y R u hy hparse hrev
  have hyy : (if f.fiscal_year = "" then toString env.currentYear else f.fiscal_year) =
      f.fiscal_year := if_neg hy
  simp only [generateDCFData, hyy, hparse, hrev, Option.map_some', jsOrQ_some_zero]
  ring_nf

/-- Witness for C2: the amended statement applied to the sample 2024 period
with revenue one hundred billion dollars. -/
theorem C2_amended_witness :
    generateDCFData ⟨2030⟩ [samplePeriod2024] =
      [ ⟨toString ((2024:Int) + 1),
          jsRound ((100000000000:ℚ) / 1000000000 * ((105:ℚ)/100) ^ 1 * (15/100)),
          jsRound ((100000000000:ℚ) / 1000000000 * ((105:ℚ)/100) ^ 1 * (15/100) * ((97:ℚ)/100) ^ 1)⟩,
        ⟨toString ((2024:Int) + 2),
          jsRound ((100000000000:ℚ) / 1000000000 * ((105:ℚ)/100) ^ 2 * (15/100)),
          jsRound ((100000000000:ℚ) / 1000000000 * ((105:ℚ)/100) ^ 2 * (15/100) * ((97:ℚ)/100) ^ 2)⟩,
        ⟨toString ((2024:Int) + 3),
          jsRound ((100000000000:ℚ) / 1000000000 * ((105:ℚ)/100) ^ 3 * (15/100)),
          jsRound ((100000000000:ℚ) / 1000000000 * ((105:ℚ)/100) ^ 3 * (15/100) * ((97:ℚ)/100) ^ 3)⟩,
        ⟨toString ((2024:Int) + 4),
          jsRound ((100000000000:ℚ) / 1000000000 * ((105:ℚ)/100) ^ 4 * (15/100)),
          jsRound ((100000000000:ℚ) / 1000000000 * ((105:ℚ)/100) ^ 4 * (15/100) * ((97:ℚ)/100) ^ 4)⟩,
        ⟨toString ((2024:Int) + 5),
          jsRound ((100000000000:ℚ) / 1000000000 * ((105:ℚ)/100) ^ 5 * (15/100)),
          jsRound ((100000000000:ℚ) / 1000000000 * ((105:ℚ)/100) ^ 5 * (15/100) * ((97:ℚ)/100) ^ 5)⟩ ] :=
  (C2_amended ⟨2030⟩).2 samplePeriod2024 [] 2024 100000000000 "USD" (by decide) rfl rfl

/-- Claim C3 is false as stated: for a snapshot whose open is 0 and close is
50 the derived previous close is 50 (the fallback to the close), not the
snapshot open, and the change is 0, not close minus open. -/
theorem C3_counterexample :
    previousClose [⟨some 50, some 0⟩] = 50 ∧ (50:ℚ) ≠ 0 ∧
    priceChange [⟨some 50, some 0⟩] = 0 ∧ (0:ℚ) ≠ 50 - 0 := by
  refine ⟨?_, by norm_num, ?_, by norm_num⟩
  · norm_num [previousClose, currentPrice, jsOrQ]
  · norm_num [priceChange, previousClose, currentPrice, jsOrQ]

/-- Claim C3 (amended): for a snapshot with close C and a nonzero open O,
the current price is C, the previous close is O, the change is C − O, and
the percent string is (change/previous × 100) to two decimals when O > 0 and
"0.00" otherwise; when the open is zero or absent the previous close instead
falls back to the close (see the C10 theorem). -/
theorem C3_price_change (C O : ℚ) (hO : O ≠ 0) :
    currentPrice [⟨some C, some O⟩] = C ∧
    previousClose [⟨some C, some O⟩] = O ∧
    priceChange [⟨some C, some O⟩] = C - O ∧
    priceChangePercent [⟨some C, some O⟩] =
      (if O > 0 then toFixed2 ((C - O) / O * 100) else "0.00") := by
  have hc : currentPrice [⟨some C, some O⟩] = C := by
    simp [currentPrice, jsOrQ_some_zero]
  have hpv : previousClose [⟨some C, some O⟩] = O := by
    simp [previousClose, jsOrQ, hO]
  have hch : priceChange [⟨some C, some O⟩] = C - O := by
    simp [priceChange, hc, hpv]
  refine ⟨hc, hpv, hch, ?_⟩
  simp only [priceChangePercent]
  rw [hpv, hch]

/-- Witness for C3: the amended statement at close 55 and open 50, with the
percent string evaluated. -/
theorem C3_price_change_witness :
    currentPrice [⟨some 55, some 50⟩] = 55 ∧
    previousClose [⟨some 55, some 50⟩] = 50 ∧
    priceChange [⟨some 55, some 50⟩] = 5 ∧
    priceChangePercent [⟨some 55, some 50⟩] = "10.00" := by
  have h := C3_price_change 55 50 (by norm_num)
  refine ⟨h.1, h.2.1, ?_, ?_⟩
  · rw [h.2.2.1]; norm_num
  · rw [h.2.2.2]
    norm_num [toFixed2, toFixed2Nonneg, twoDigits]
    rfl

/-- Claim C10: when the snapshot's open is absent or zero and its close is
present, the previous close falls back to the close, the change is exactly 0
and, for a positive close, the percent string is "0.00"; and a genuinely
zero divisor (derived previous close = 0) forces both the open and the close
to be absent or zero. -/
theorem C10_open_fallback :
    (∀ (C : ℚ) (o : Option ℚ), o = none ∨ o = some 0 →
      previousClose [⟨some C, o⟩] = C ∧
      priceChange [⟨some C, o⟩] = 0 ∧
      (C > 0 → priceChangePercent [⟨some C, o⟩] = "0.00")) ∧
    (∀ b : PrevBar, previousClose [b] = 0 →
      (b.o = none ∨ b.o = some 0) ∧ (b.c = none ∨ b.c = some 0)) := by
  constructor
  · intro C o ho
    have hc : currentPrice [⟨some C, o⟩] = C := by
      simp [currentPrice, jsOrQ_some_zero]
    have hpv : previousClose [⟨some C, o⟩] = C := by
      rcases ho with h | h <;> subst h <;> simp [previousClose, jsOrQ, hc]
    have hch : priceChange [⟨some C, o⟩] = 0 := by
      simp [priceChange, hc, hpv]
    refine ⟨hpv, hch, fun hC => ?_⟩
    simp only [priceChangePercent, hpv, hch]
    rw [if_pos hC]
    simp [toFixed2_zero]
  · intro b h
    obtain ⟨c, o⟩ := b
    have h' : jsOrQ o (jsOrQ c 0) = 0 := h
    cases o with
    | none =>
      have hc0 : jsOrQ c 0 = 0 := h'
      exact ⟨Or.inl rfl, (jsOrQ_zero_iff c).mp hc0⟩
    | some O =>
      by_cases hO : O = 0
      · subst hO
        simp only [jsOrQ] at h'
        exact ⟨Or.inr rfl, (jsOrQ_zero_iff c).mp h'⟩
      · simp only [jsOrQ, if_neg hO] at h'
        exact absurd h' hO

/-- Witness for C10: the fallback at close 42 with a zero open. -/
theorem C10_open_fallback_witness :
    previousClose [⟨some 42, some 0⟩] = 42 ∧
    priceChange [⟨some 42, some 0⟩] = 0 ∧
    priceChangePercent [⟨some 42, some 0⟩] = "0.00" := by
  have h := C10_open_fallback.1 42 (some 0) (Or.inr rfl)
  exact ⟨h.1, h.2.1, h.2.2 (by norm_num)⟩

/-- Claim C8 is false as stated: `generateDCFData` reads the system clock's
current year when the latest period's fiscal year is falsy, so the same
input evaluated in two different years produces different outputs. -/
theorem C8_counterexample :
    generateDCFData ⟨2024⟩ [blankPeriod] ≠ generateDCFData ⟨2025⟩ [blankPeriod] := by
  have hys : ((generateDCFData ⟨2024⟩ [blankPeriod]).map (fun p => p.year)) ≠
      ((generateDCFData ⟨2025⟩ [blankPeriod]).map (fun p => p.year)) := by decide
  exact fun h => hys (by rw [h])

/-- Claim C8 (amended): every listed derived-metrics function except
`generateDCFData` reads no ambient state at all, and `generateDCFData` is
also environment-independent whenever the first period's fiscal year is
non-empty; only its fallback for a falsy fiscal year consults the clock. -/
theorem C8_determinism :
    (∀ e1 e2 : BrowserEnv, ∀ v : ℚ, runFormatCurrency e1 v = runFormatCurrency e2 v) ∧
    (∀ e1 e2 : BrowserEnv, ∀ rs, runRevenueChartData e1 rs = runRevenueChartData e2 rs) ∧
    (∀ e1 e2 : BrowserEnv, ∀ rs, runProfitChartData e1 rs = runProfitChartData e2 rs) ∧
    (∀ e1 e2 : BrowserEnv, ∀ r : ℚ,
      runGenerateDemoSegmentsData e1 r = runGenerateDemoSegmentsData e2 r) ∧
    (∀ e1 e2 : BrowserEnv, ∀ g : ℚ, runGetGrowthColor e1 g = runGetGrowthColor e2 g) ∧
    (∀ e1 e2 : BrowserEnv, ∀ fs, headYearPresent fs = true →
      generateDCFData e1 fs = generateDCFData e2 fs) := by
  refine ⟨fun _ _ _ => rfl, fun _ _ _ => rfl, fun _ _ _ => rfl, fun _ _ _ => rfl,
    fun _ _ _ => rfl, ?_⟩
  intro e1 e2 fs h
  cases fs with
  | nil => rfl
  | cons f rest =>
    have hy : f.fiscal_year ≠ "" := by
      simpa [headYearPresent] using h
    simp [generateDCFData, hy]

/-- Witness for C8: `generateDCFData` on the sample period is the same under
two different clock years. -/
theorem C8_determinism_witness :
    generateDCFData ⟨2024⟩ [samplePeriod2024] = generateDCFData ⟨2031⟩ [samplePeriod2024] :=
  C8_determinism.2.2.2.2.2 ⟨2024⟩ ⟨2031⟩ [samplePeriod2024] (by decide)

end ValueInvestor
